import Mathlib

/-!
Shallow embedding of the MILQT training core (`train.py` and `trainer.py`)
and verification of its specification claims.

Python floats are idealised as exact rationals (`ℚ`) except where a true
L2 norm (square root) is required, where real numbers (`ℝ`) are used.
Python integers are `ℕ`; `int(a / b)` on non-negative integers is `ℕ`
floor division.
-/

namespace MILQT

/-! ## Learning-rate schedule (train.py, `train`, lines 30-37 and 72-79) -/

/-- `gradual_warmup_steps = [0.5 * lr_default, 1.0 * lr_default, 1.5 * lr_default, 2.0 * lr_default]`
(train.py line 35). -/
def gradualWarmupSteps (lrDefault : ℚ) : List ℚ :=
  [(1/2) * lrDefault, 1 * lrDefault, (3/2) * lrDefault, 2 * lrDefault]

/-- `lr_decay_rate = .25` (train.py line 33). -/
def lrDecayRate : ℚ := 1/4

/-- `lr_decay_epochs = range(10, 20, 2)` (train.py lines 32, 34), i.e. `[10, 12, 14, 16, 18]`
(both branches of the conditional on line 34 are the same range). -/
def lrDecayEpochs : List ℕ := List.range' 10 5 2

/-- The per-epoch learning-rate adjustment (train.py lines 72-79): given the epoch
index and the learning rate left over from the previous epoch, return the learning
rate used for this epoch.  Mirrors
`if epoch < len(gradual_warmup_steps): lr = gradual_warmup_steps[epoch]
 elif epoch in lr_decay_epochs: lr *= lr_decay_rate
 else: (unchanged)`. -/
def lrStep (lrDefault : ℚ) (epoch : ℕ) (prev : ℚ) : ℚ :=
  if epoch < (gradualWarmupSteps lrDefault).length then
    (gradualWarmupSteps lrDefault).getD epoch 0
  else if epoch ∈ lrDecayEpochs then
    prev * lrDecayRate
  else
    prev

/-- The learning rate in effect during epoch `e` of a run started at epoch 0:
the optimizer is built with `lr = lr_default` (train.py line 42) and each epoch
applies `lrStep` to the value left by the previous epoch. -/
def lrAt (lrDefault : ℚ) : ℕ → ℚ
  | 0 => lrStep lrDefault 0 lrDefault
  | e + 1 => lrStep lrDefault (e + 1) (lrAt lrDefault e)

/-! ## Score function (train.py lines 20-25, duplicated in trainer.py lines 259-264) -/

/-- Helper for `argmax1`: the index of the first maximal element, scanning the
remaining list with current best index `bi` and best value `bv`, next index `i`. -/
def argmaxFrom (bi : ℕ) (bv : ℚ) (i : ℕ) : List ℚ → ℕ
  | [] => bi
  | x :: xs => if bv < x then argmaxFrom i x (i + 1) xs else argmaxFrom bi bv (i + 1) xs

/-- `torch.max(logits, 1)[1]` for one row: index of the first maximal element
(ties resolve to the first maximal index). -/
def argmax1 : List ℚ → ℕ
  | [] => 0
  | x :: xs => argmaxFrom 0 x 1 xs

/-- `one_hots = torch.zeros(*labels.size()); one_hots.scatter_(1, idx, 1)` for one
row of width `n` with hot index `idx` (train.py lines 22-23). -/
def oneHotRow : ℕ → ℕ → List ℚ
  | 0, _ => []
  | n + 1, 0 => 1 :: List.replicate n 0
  | n + 1, i + 1 => 0 :: oneHotRow n i

/-- `compute_score_with_logits(logits, labels)` (train.py lines 20-25): the matrix
`one_hots * labels` where `one_hots` has a 1 at each row's argmax of `logits`. -/
def compute_score_with_logits (logits labels : List (List ℚ)) : List (List ℚ) :=
  (logits.zip labels).map
    (fun p => List.zipWith (· * ·) (oneHotRow p.2.length (argmax1 p.1)) p.2)

/-- Per-example scores: each row of the score matrix summed (what `.sum()` adds up
row by row; callers sum the whole matrix). -/
def rowScores (logits labels : List (List ℚ)) : List ℚ :=
  (compute_score_with_logits logits labels).map List.sum

/-! ## Epoch loop batch bookkeeping (train.py lines 70-93, 100-102) -/

/-- `num_batches = int(N / args.batch_size + 1)` (train.py line 71); Python float
division followed by `int` truncation is floor division for these non-negative
quantities. -/
def num_batches (N B : ℕ) : ℕ := N / B + 1

/-- Whether the micro-batch at 0-based loader index `i` is run with
`update_params=True` (train.py lines 90-93): it is buffered
(`update_params=False`) exactly when `i < num_batches - 1 and (i+1) % update_freq > 0`. -/
def update_params_flag (N B uf i : ℕ) : Bool :=
  !(decide (i < num_batches N B - 1) && decide ((i + 1) % uf > 0))

/-- Number of micro-batches actually yielded per epoch by a standard
(`drop_last=False`) data loader over `N` examples with batch size `B`:
`ceil(N / B)`. -/
def loader_batches (N B : ℕ) : ℕ := (N + B - 1) / B

/-- `int(args.print_interval / update_freq)` (train.py line 101). -/
def print_divisor (printInterval updateFreq : ℕ) : ℕ := printInterval / updateFreq

/-- Python `a % b`: raises `ZeroDivisionError` when `b = 0`, modelled as `none`. -/
def pymod (a b : ℕ) : Option ℕ := if b = 0 then none else some (a % b)

/-! ## Trainer state machine (trainer.py, class `Trainer`)

Gradients are flattened tensors over `ℚ`.  Exceptions are modelled by an
explicit error type; `Except.error` corresponds to a Python exception
propagating out of the function, carrying the mutated state at the point
where the exception escaped. -/

/-- The Python exception classes distinguished by trainer.py's handlers.
`runtimeError oomMsg` is a `RuntimeError` whose message contains (`oomMsg = true`)
or does not contain (`oomMsg = false`) the substring `out of memory`;
trainer.py line 204 raises a `RuntimeError` without that substring when a
trainable parameter has no gradient. -/
inductive PyErr where
  | runtimeError (oomMsg : Bool)
  | overflowError
  | nameError
  | typeError
  deriving DecidableEq, Repr

/-- One model parameter as the trainer sees it: its `requires_grad` flag and its
current `.grad` storage (`none` is Python `None`). -/
structure Param where
  requiresGrad : Bool
  grad : Option (List ℚ)
  deriving DecidableEq, Repr

/-- The mutable trainer state touched by `train_step` and its callees:
the model parameters' gradients, the optimizer interaction counters
(`stepCount` counts `optimizer.step()` calls — a faithful stand-in for the
optimizer's internal Adamax state, which mutates exactly on `step()`;
`zeroGradCount` counts `optimizer.zero_grad()` calls), `_num_updates`,
the `_buffered_stats` lists, and the number of `| WARNING:` lines printed. -/
structure TrainerState where
  params : List Param
  stepCount : ℕ
  zeroGradCount : ℕ
  numUpdates : ℕ
  sampleSizes : List ℕ
  oomsFwd : List ℕ
  oomsBwd : List ℕ
  warnings : ℕ
  deriving DecidableEq, Repr

/-- The nondeterministic environment for one `train_step` call: whether the model
forward / loss computation raises (`fwdRaise`), whether `loss.backward()` raises
(`bwdRaise`), whether gradient aggregation/rescaling hits numerically invalid
state and raises `OverflowError` (`overflowInCommit`), the scalar loss value a
successful forward produces, and the gradient contribution a successful backward
accumulates into each parameter (`none` entries: parameter untouched by
autograd, e.g. unused in the forward pass). -/
structure StepEnv where
  fwdRaise : Option PyErr
  bwdRaise : Option PyErr
  overflowInCommit : Bool
  lossVal : ℚ
  contrib : List (Option (List ℚ))
  deriving DecidableEq, Repr

/-- Elementwise sum of two gradient tensors. -/
def addVec (a b : List ℚ) : List ℚ := List.zipWith (· + ·) a b

/-- Autograd accumulation into one parameter: first contribution sets `.grad`,
later ones add to it. -/
def accumParam (p : Param) (c : List ℚ) : Param :=
  { p with grad := some (match p.grad with | none => c | some g => addVec g c) }

/-- Effect of a successful `loss.backward()` on the parameter list: each listed
contribution accumulates into the parameter at the same position; parameters
beyond the contribution list (or with a `none` contribution) are untouched. -/
def accumGrads : List Param → List (Option (List ℚ)) → List Param
  | ps, [] => ps
  | [], _ => []
  | p :: ps, c :: cs =>
    (match c with | none => p | some v => accumParam p v) :: accumGrads ps cs

/-- `optimizer.zero_grad()` on one parameter: existing gradient storage is
zeroed in place (a parameter whose `.grad` is still `None` stays `None`). -/
def zeroParam (p : Param) : Param :=
  if p.requiresGrad then { p with grad := p.grad.map (fun g => g.map (fun _ => (0:ℚ))) }
  else p

/-- `optimizer.zero_grad()` over the trainable parameters. -/
def zeroGradParams (ps : List Param) : List Param := ps.map zeroParam

/-- `Trainer.zero_grad` (trainer.py lines 238-239). -/
def zeroGrad (st : TrainerState) : TrainerState :=
  { st with params := zeroGradParams st.params, zeroGradCount := st.zeroGradCount + 1 }

/-- Appending one micro-batch's stats to `_buffered_stats` (trainer.py lines
77-79); the sample size appended is the literal `1`. -/
def bufferStats (st : TrainerState) (oomF oomB : ℕ) : TrainerState :=
  { st with sampleSizes := st.sampleSizes ++ [1],
            oomsFwd := st.oomsFwd ++ [oomF],
            oomsBwd := st.oomsBwd ++ [oomB] }

/-- `Trainer.clear_buffered_stats` (trainer.py lines 241-242):
`self._buffered_stats.clear()` empties every list in the defaultdict. -/
def clearBufferedStats (st : TrainerState) : TrainerState :=
  { st with sampleSizes := [], oomsFwd := [], oomsBwd := [] }

/-- `grad_denom = sum(sample_sizes)` (trainer.py line 91). -/
def grad_denom (sizes : List ℕ) : ℕ := sizes.sum

/-- `Trainer._opt` (trainer.py lines 229-233): `optimizer.step()`, then
`zero_grad()`, then `_num_updates += 1`. -/
def optStep (st : TrainerState) : TrainerState :=
  let st1 := { st with stepCount := st.stepCount + 1 }
  let st2 := zeroGrad st1
  { st2 with numUpdates := st2.numUpdates + 1 }

/-- `Trainer._get_grads` (trainer.py lines 198-207): collect the `.grad` of every
`requires_grad` parameter in traversal order; raise a `RuntimeError` (whose
message does not contain `out of memory`) if any such parameter has no gradient. -/
def getGrads : List Param → Except PyErr (List (List ℚ))
  | [] => .ok []
  | p :: ps =>
    if p.requiresGrad then
      match p.grad with
      | none => .error (PyErr.runtimeError false)
      | some g =>
        match getGrads ps with
        | .error e => .error e
        | .ok gs => .ok (g :: gs)
    else getGrads ps

/-- `Trainer._get_flat_grads` (trainer.py lines 209-219): concatenate the
per-parameter gradients into one flat buffer (the source copies into an exactly
sized reusable buffer `out` and returns `out[:offset]`; with correct sizing this
is concatenation). -/
def get_flat_grads (grads : List (List ℚ)) : List ℚ := grads.flatten

/-- `Trainer._set_flat_grads` (trainer.py lines 221-227) viewed on the gradient
list: carve the flat buffer back into pieces of the same shapes, in the same
traversal order. -/
def set_flat_grads : List (List ℚ) → List ℚ → List (List ℚ)
  | [], _ => []
  | g :: gs, newGrads => newGrads.take g.length :: set_flat_grads gs (newGrads.drop g.length)

/-- Writing the carved-up flat buffer back into the `requires_grad` parameters'
gradient storage, in traversal order (the `g.copy_(...)` loop of
`_set_flat_grads`). -/
def setParamGrads : List Param → List (List ℚ) → List Param
  | [], _ => []
  | p :: ps, gs =>
    if p.requiresGrad then
      match gs with
      | [] => p :: setParamGrads ps []
      | g :: gs' => { p with grad := some g } :: setParamGrads ps gs'
    else p :: setParamGrads ps gs

/-- `Trainer._all_reduce_and_rescale` (trainer.py lines 185-196) at the level of
the trainer state: flatten the gradients (may raise the missing-gradient
`RuntimeError`), divide every element by `grad_denom`, clip (during which
numerically invalid state raises `OverflowError` — modelled by the environment
flag `overflow`, since the raise originates in `utils.clip_grad_norm_`, outside
trainer.py), and copy the result back into the parameters.  On an exception the
parameters are left as they were (the copy-back never runs). -/
def allReduceAndRescaleQ (overflow : Bool) (denom : ℕ) (st : TrainerState) :
    Except PyErr TrainerState :=
  match getGrads st.params with
  | .error e => .error e
  | .ok grads =>
    let flat := get_flat_grads grads
    let flat2 := flat.map (fun x => x / (denom : ℚ))
    if overflow then .error PyErr.overflowError
    else .ok { st with params := setParamGrads st.params (set_flat_grads grads flat2) }

/-- `Trainer._forward` in training mode (trainer.py lines 116-168): under
`args.model == "MILQT"` run the model and criterion (which may raise; a
`RuntimeError` containing `out of memory` is caught, prints a warning and yields
`loss = None` with `oom = 1`; anything else propagates).  For any other model
name the `if` body is skipped and line 160 reads the never-assigned local
`final_preds`, raising a `NameError` (not caught: the handler only catches
`RuntimeError`).  Returns `(loss, oom)`. -/
def forwardTrain (modelName : String) (env : StepEnv) : Except PyErr (Option ℚ × ℕ) :=
  if modelName = "MILQT" then
    match env.fwdRaise with
    | some (PyErr.runtimeError true) => .ok (none, 1)
    | some e => .error e
    | none => .ok (some env.lossVal, 0)
  else
    .error PyErr.nameError

/-- `Trainer._backward` (trainer.py lines 170-183): skip entirely when `loss` is
`None`; otherwise `loss.backward()` accumulates the environment's contributions,
and a `RuntimeError` containing `out of memory` is caught (warning printed,
`zero_grad()` called, `oom = 1`) while anything else propagates.
Returns `(oom, state)`. -/
def backwardStep (env : StepEnv) (loss : Option ℚ) (st : TrainerState) :
    Except PyErr (ℕ × TrainerState) :=
  match loss with
  | none => .ok (0, st)
  | some _ =>
    match env.bwdRaise with
    | some (PyErr.runtimeError true) =>
      .ok (1, { zeroGrad st with warnings := (zeroGrad st).warnings + 1 })
    | some e => .error e
    | none => .ok (0, { st with params := accumGrads st.params env.contrib })

/-- The commit branch of `Trainer.train_step` (trainer.py lines 82-112):
aggregate and rescale gradients and take an optimizer step inside a
`try ... except OverflowError` (a caught overflow zeroes the gradients and
prints a warning); `clear_buffered_stats()` runs after the try/except on both
the success and the caught-overflow path, but not when another exception
propagates. -/
def commitStep (env : StepEnv) (st : TrainerState) : Except (PyErr × TrainerState) TrainerState :=
  let denom := grad_denom st.sampleSizes
  match allReduceAndRescaleQ env.overflowInCommit denom st with
  | .error PyErr.overflowError =>
    .ok (clearBufferedStats { zeroGrad st with warnings := (zeroGrad st).warnings + 1 })
  | .error e => .error (e, st)
  | .ok st' => .ok (clearBufferedStats (optStep st'))

/-- `Trainer.train_step` (trainer.py lines 62-114): forward, backward, buffer the
micro-batch's stats, and, when `update_params` is true, run the commit branch.
The forward-OOM warning print is accounted here.  A propagating exception
carries the state at the moment it escaped. -/
def train_step (modelName : String) (env : StepEnv) (updateParams : Bool)
    (st : TrainerState) : Except (PyErr × TrainerState) TrainerState :=
  match forwardTrain modelName env with
  | .error e => .error (e, st)
  | .ok (loss, oomF) =>
    let st1 := if oomF = 1 then { st with warnings := st.warnings + 1 } else st
    match backwardStep env loss st1 with
    | .error e => .error (e, st1)
    | .ok (oomB, st2) =>
      let st3 := bufferStats st2 oomF oomB
      if updateParams then commitStep env st3 else .ok st3

/-- The state a `train_step` call ends in when it returns normally
(`none` when an exception propagates). -/
def okState : Except (PyErr × TrainerState) TrainerState → Option TrainerState
  | .ok st => some st
  | .error _ => none

/-- The per-batch score computation of `evaluate` (train.py lines 147-152):
`final_preds` starts as `None`, is assigned only when `args.model == "MILQT"`,
and is then passed to `compute_score_with_logits`, whose `torch.max(None, 1)`
raises a `TypeError` when it is still `None`.  On success the batch score is the
summed score matrix. -/
def evalBatchScore (modelName : String) (preds labels : List (List ℚ)) : Except PyErr ℚ :=
  let finalPreds : Option (List (List ℚ)) := if modelName = "MILQT" then some preds else none
  match finalPreds with
  | none => .error PyErr.typeError
  | some ps => .ok ((rowScores ps labels).sum)

/-! ## Gradient rescaling and clipping over ℝ (trainer.py lines 185-196)

The numeric content of `_all_reduce_and_rescale` needs a true L2 norm, so this
part of the embedding works over `ℝ` on the flat buffer directly. -/

/-- Global L2 norm of a flat buffer. -/
noncomputable def l2norm (v : List ℝ) : ℝ :=
  Real.sqrt ((v.map (fun x => x ^ 2)).sum)

/-- Modelled from the spec: `utils.clip_grad_norm_` lives in the repository's
`utils.py`, which is not under src/.  Spec section 4.2 steps 4-5 and section 8:
compute the global L2 norm of the flat buffer; if it exceeds `max_norm`, scale
all elements by `max_norm / norm`; return the pre-clip norm. -/
noncomputable def clip_grad_norm (v : List ℝ) (maxNorm : ℝ) : List ℝ × ℝ :=
  let n := l2norm v
  (if maxNorm < n then v.map (fun x => x * (maxNorm / n)) else v, n)

/-- The numeric effect of `Trainer._all_reduce_and_rescale` (trainer.py lines
185-196) on the flat gradient buffer: divide every element by `grad_denom`,
then clip; the second component is the returned `grad_norm`. -/
noncomputable def all_reduce_and_rescale (flatGrads : List ℝ) (gradDenom : ℕ)
    (clipNorm : ℝ) : List ℝ × ℝ :=
  clip_grad_norm (flatGrads.map (fun x => x / (gradDenom : ℝ))) clipNorm

/-! ## Concrete states and environments used by the counterexamples/witnesses -/

/-- A trainer state with a single trainable parameter holding gradient `[1]`
(as left by one previously buffered micro-batch), all counters zero. -/
def stOne : TrainerState :=
  { params := [{ requiresGrad := true, grad := some [1] }],
    stepCount := 0, zeroGradCount := 0, numUpdates := 0,
    sampleSizes := [1], oomsFwd := [0], oomsBwd := [0], warnings := 0 }

/-- A fresh trainer state with a single trainable parameter holding gradient
`[2]` and empty buffers. -/
def stFresh : TrainerState :=
  { params := [{ requiresGrad := true, grad := some [2] }],
    stepCount := 0, zeroGradCount := 0, numUpdates := 0,
    sampleSizes := [], oomsFwd := [], oomsBwd := [], warnings := 0 }

/-- A fresh trainer state with a single trainable parameter that has received
no gradient. -/
def stNoGrad : TrainerState :=
  { params := [{ requiresGrad := true, grad := none }],
    stepCount := 0, zeroGradCount := 0, numUpdates := 0,
    sampleSizes := [], oomsFwd := [], oomsBwd := [], warnings := 0 }

/-- An environment in which the forward pass raises a `RuntimeError` whose
message contains `out of memory`. -/
def envOOM : StepEnv :=
  { fwdRaise := some (PyErr.runtimeError true), bwdRaise := none,
    overflowInCommit := false, lossVal := 0, contrib := [] }

/-- A failure-free environment contributing gradient `[1]` to the single
parameter. -/
def envOk : StepEnv :=
  { fwdRaise := none, bwdRaise := none, overflowInCommit := false,
    lossVal := 1, contrib := [some [1]] }

/-- An environment in which gradient aggregation/rescaling raises
`OverflowError` at commit time. -/
def envOverflow : StepEnv :=
  { fwdRaise := none, bwdRaise := none, overflowInCommit := true,
    lossVal := 1, contrib := [some [1]] }

/-- An environment whose backward pass touches no parameter (as when the only
trainable parameter is unused by the loss). -/
def envNoTouch : StepEnv :=
  { fwdRaise := none, bwdRaise := none, overflowInCommit := false,
    lossVal := 1, contrib := [none] }

/-- The state `train_step "MILQT" envOOM false stOne` ends in: the OOM warning
is printed and the stats are buffered, but the gradient is untouched (not
zeroed), no `zero_grad` happens and no optimizer step is taken. -/
def stAfterOOMBuffer : TrainerState :=
  { params := [{ requiresGrad := true, grad := some [1] }],
    stepCount := 0, zeroGradCount := 0, numUpdates := 0,
    sampleSizes := [1, 1], oomsFwd := [0, 1], oomsBwd := [0, 0], warnings := 1 }

/-! ## Helper lemmas -/

theorem zipWith_mul_replicate_zero (xs : List ℚ) (n : ℕ) :
    (List.zipWith (· * ·) (List.replicate n (0:ℚ)) xs).sum = 0 := by
  induction xs generalizing n with
  | nil => simp
  | cons x xs ih =>
    cases n with
    | zero => simp
    | succ m => simp [List.replicate_succ, ih]

theorem oneHot_score (row : List ℚ) (i : ℕ) :
    (List.zipWith (· * ·) (oneHotRow row.length i) row).sum = row.getD i 0 := by
  induction row generalizing i with
  | nil => simp [oneHotRow]
  | cons x xs ih =>
    cases i with
    | zero => simp [oneHotRow, zipWith_mul_replicate_zero]
    | succ j => simp [oneHotRow, ih]

theorem binary_getD (row : List ℚ) (h : ∀ x ∈ row, x = 0 ∨ x = 1) (i : ℕ) :
    row.getD i 0 = 0 ∨ row.getD i 0 = 1 := by
  induction row generalizing i with
  | nil => left; simp
  | cons x xs ih =>
    cases i with
    | zero => simpa using h x (by simp)
    | succ j => exact ih (fun y hy => h y (by simp [hy])) j

theorem sum_ones (l : List ℕ) (h : ∀ s ∈ l, s = 1) : l.sum = l.length := by
  induction l with
  | nil => simp
  | cons a l ih =>
    have ha : a = 1 := h a (by simp)
    rw [List.sum_cons, ha, ih (fun s hs => h s (by simp [hs])), List.length_cons]
    omega

theorem sum_sq_nonneg (v : List ℝ) : 0 ≤ (v.map (fun x => x ^ 2)).sum := by
  apply List.sum_nonneg
  intro x hx
  rcases List.mem_map.mp hx with ⟨y, _, rfl⟩
  positivity

theorem l2norm_scale (v : List ℝ) (c : ℝ) (hc : 0 ≤ c) :
    l2norm (v.map (fun x => x * c)) = l2norm v * c := by
  unfold l2norm
  rw [List.map_map]
  have h1 : ((fun x : ℝ => x ^ 2) ∘ fun x : ℝ => x * c) = fun x : ℝ => x ^ 2 * c ^ 2 := by
    funext x
    simp [mul_pow]
  rw [h1, List.sum_map_mul_right, Real.sqrt_mul (sum_sq_nonneg v), Real.sqrt_sq hc]

theorem lrDecayEpochs_eq : lrDecayEpochs = [10, 12, 14, 16, 18] := rfl

theorem lrAt_succ (lr : ℚ) (e : ℕ) : lrAt lr (e + 1) = lrStep lr (e + 1) (lrAt lr e) := rfl

theorem lrAt_vals :
    lrAt (1/1000) 0 = 1/2000 ∧ lrAt (1/1000) 3 = 1/500 ∧
    lrAt (1/1000) 10 = 1/2000 ∧ lrAt (1/1000) 12 = 1/8000 := by
  have h0 : lrAt (1/1000 : ℚ) 0 = 1/2000 := by
    show lrStep (1/1000) 0 (1/1000) = 1/2000
    norm_num [lrStep, gradualWarmupSteps]
  have h1 : lrAt (1/1000 : ℚ) 1 = 1/1000 := by
    show lrAt (1/1000) (0+1) = 1/1000
    rw [lrAt_succ, h0]
    norm_num [lrStep, gradualWarmupSteps]
  have h2 : lrAt (1/1000 : ℚ) 2 = 3/2000 := by
    show lrAt (1/1000) (1+1) = 3/2000
    rw [lrAt_succ, h1]
    norm_num [lrStep, gradualWarmupSteps]
  have h3 : lrAt (1/1000 : ℚ) 3 = 1/500 := by
    show lrAt (1/1000) (2+1) = 1/500
    rw [lrAt_succ, h2]
    norm_num [lrStep, gradualWarmupSteps]
  have h4 : lrAt (1/1000 : ℚ) 4 = 1/500 := by
    show lrAt (1/1000) (3+1) = 1/500
    rw [lrAt_succ, h3]
    norm_num [lrStep, gradualWarmupSteps, lrDecayEpochs_eq]
  have h5 : lrAt (1/1000 : ℚ) 5 = 1/500 := by
    show lrAt (1/1000) (4+1) = 1/500
    rw [lrAt_succ, h4]
    norm_num [lrStep, gradualWarmupSteps, lrDecayEpochs_eq]
  have h6 : lrAt (1/1000 : ℚ) 6 = 1/500 := by
    show lrAt (1/1000) (5+1) = 1/500
    rw [lrAt_succ, h5]
    norm_num [lrStep, gradualWarmupSteps, lrDecayEpochs_eq]
  have h7 : lrAt (1/1000 : ℚ) 7 = 1/500 := by
    show lrAt (1/1000) (6+1) = 1/500
    rw [lrAt_succ, h6]
    norm_num [lrStep, gradualWarmupSteps, lrDecayEpochs_eq]
  have h8 : lrAt (1/1000 : ℚ) 8 = 1/500 := by
    show lrAt (1/1000) (7+1) = 1/500
    rw [lrAt_succ, h7]
    norm_num [lrStep, gradualWarmupSteps, lrDecayEpochs_eq]
  have h9 : lrAt (1/1000 : ℚ) 9 = 1/500 := by
    show lrAt (1/1000) (8+1) = 1/500
    rw [lrAt_succ, h8]
    norm_num [lrStep, gradualWarmupSteps, lrDecayEpochs_eq]
  have h10 : lrAt (1/1000 : ℚ) 10 = 1/2000 := by
    show lrAt (1/1000) (9+1) = 1/2000
    rw [lrAt_succ, h9]
    norm_num [lrStep, gradualWarmupSteps, lrDecayEpochs_eq, lrDecayRate]
  have h11 : lrAt (1/1000 : ℚ) 11 = 1/2000 := by
    show lrAt (1/1000) (10+1) = 1/2000
    rw [lrAt_succ, h10]
    norm_num [lrStep, gradualWarmupSteps, lrDecayEpochs_eq]
  have h12 : lrAt (1/1000 : ℚ) 12 = 1/8000 := by
    show lrAt (1/1000) (11+1) = 1/8000
    rw [lrAt_succ, h11]
    norm_num [lrStep, gradualWarmupSteps, lrDecayEpochs_eq, lrDecayRate]
  exact ⟨h0, h3, h10, h12⟩

/-! ## Claim theorems -/

/-- C1 (amended): the schedule sets LR to `[0.5, 1.0, 1.5, 2.0][e] * lr` for
`e < 4`, multiplies the previous LR by `0.25` for `e ∈ {10,12,14,16,18}`, and
leaves it unchanged otherwise; but since epoch 3 is still inside the warmup
(`len(gradual_warmup_steps) = 4`), for `lr = 0.001` the concrete values are:
epoch 0 → 0.0005, epoch 3 → 0.002, epoch 10 → 0.002×0.25 = 0.0005, and
epoch 12 → 0.0005×0.25 = 0.000125. -/
theorem C1_schedule :
    (∀ (lr prev : ℚ) (e : ℕ), e < 4 →
      lrStep lr e prev = [(1/2) * lr, 1 * lr, (3/2) * lr, 2 * lr].getD e 0) ∧
    (∀ (lr prev : ℚ) (e : ℕ), 4 ≤ e → e ∈ lrDecayEpochs → lrStep lr e prev = prev * (1/4)) ∧
    (∀ (lr prev : ℚ) (e : ℕ), 4 ≤ e → e ∉ lrDecayEpochs → lrStep lr e prev = prev) ∧
    lrAt (1/1000) 0 = 1/2000 ∧ lrAt (1/1000) 3 = 1/500 ∧
    lrAt (1/1000) 10 = 1/2000 ∧ lrAt (1/1000) 12 = 1/8000 := by
  refine ⟨?_, ?_, ?_, lrAt_vals.1, lrAt_vals.2.1, lrAt_vals.2.2.1, lrAt_vals.2.2.2⟩
  · intro lr prev e h
    simp [lrStep, gradualWarmupSteps, h]
  · intro lr prev e h4 hmem
    have hlt : ¬ e < (gradualWarmupSteps lr).length := by
      simp [gradualWarmupSteps]
      omega
    simp only [lrStep, if_neg hlt, if_pos hmem, lrDecayRate]
  · intro lr prev e h4 hmem
    have hlt : ¬ e < (gradualWarmupSteps lr).length := by
      simp [gradualWarmupSteps]
      omega
    simp only [lrStep, if_neg hlt, if_neg hmem]

/-- Witness for C1: the three schedule branches applied at concrete inputs. -/
theorem C1_schedule_witness :
    ((3:ℕ) < 4 ∧
      lrStep (1/1000) 3 999 =
        [(1/2) * ((1:ℚ)/1000), 1 * (1/1000), (3/2) * (1/1000), 2 * (1/1000)].getD 3 0) ∧
    ((4:ℕ) ≤ 10 ∧ 10 ∈ lrDecayEpochs ∧ lrStep (1/1000) 10 (1/500) = (1/500) * (1/4)) ∧
    ((4:ℕ) ≤ 5 ∧ 5 ∉ lrDecayEpochs ∧ lrStep (1/1000) 5 (1/500) = 1/500) :=
  ⟨⟨by decide, C1_schedule.1 (1/1000) 999 3 (by decide)⟩,
   ⟨by decide, by decide, C1_schedule.2.1 (1/1000) (1/500) 10 (by decide) (by decide)⟩,
   ⟨by decide, by decide, C1_schedule.2.2.1 (1/1000) (1/500) 5 (by decide) (by decide)⟩⟩

/-- C1 counterexample: the claim's concrete values are false on the code.
Epoch 3 is still a warmup epoch, so for `lr = 0.001` the LR is 0.002, not
0.001; consequently epoch 10 yields 0.0005, not 0.00025. -/
theorem C1_counterexample :
    lrAt (1/1000) 3 = 1/500 ∧ ((1:ℚ)/500 ≠ 1/1000) ∧
    lrAt (1/1000) 10 = 1/2000 ∧ ((1:ℚ)/2000 ≠ 1/4000) :=
  ⟨lrAt_vals.2.1, by norm_num, lrAt_vals.2.2.1, by norm_num⟩

theorem argmax_example1 : argmax1 [(9:ℚ)/10, 1/10] = 0 := by
  show argmaxFrom 0 (9/10) 1 [1/10] = 0
  simp only [argmaxFrom]
  rw [if_neg (by norm_num : ¬ (9:ℚ)/10 < 1/10)]

theorem argmax_example2 : argmax1 [(2:ℚ)/10, 8/10] = 1 := by
  show argmaxFrom 0 (2/10) 1 [8/10] = 1
  simp only [argmaxFrom]
  rw [if_pos (by norm_num : (2:ℚ)/10 < 8/10)]

theorem argmax_example3 : argmax1 [(1:ℚ), 0] = 0 := by
  show argmaxFrom 0 1 1 [0] = 0
  simp only [argmaxFrom]
  rw [if_neg (by norm_num : ¬ (1:ℚ) < 0)]

/-- C3 (amended): each example's score is the ground-truth weight at the
argmax-predicted index (by `oneHot_score`); this agrees with the claimed
0-or-1 indicator exactly when the labels are 0/1-valued, and the claim's two
concrete examples evaluate as stated. -/
theorem C3_score_semantics :
    (∀ logits labels : List (List ℚ),
      rowScores logits labels =
        (logits.zip labels).map (fun p => p.2.getD (argmax1 p.1) 0)) ∧
    (∀ logits labels : List (List ℚ),
      (∀ row ∈ labels, ∀ x ∈ row, x = 0 ∨ x = 1) →
      rowScores logits labels =
        (logits.zip labels).map
          (fun p => if p.2.getD (argmax1 p.1) 0 = 0 then 0 else 1)) ∧
    rowScores [[9/10, 1/10], [2/10, 8/10]] [[1, 0], [0, 1]] = [1, 1] ∧
    (rowScores [[9/10, 1/10], [2/10, 8/10]] [[1, 0], [0, 1]]).sum = 2 ∧
    rowScores [[9/10, 1/10], [2/10, 8/10]] [[0, 1], [0, 1]] = [0, 1] ∧
    (rowScores [[9/10, 1/10], [2/10, 8/10]] [[0, 1], [0, 1]]).sum = 1 := by
  have key : ∀ logits labels : List (List ℚ),
      rowScores logits labels =
        (logits.zip labels).map (fun p => p.2.getD (argmax1 p.1) 0) := by
    intro logits labels
    unfold rowScores compute_score_with_logits
    rw [List.map_map]
    apply List.map_congr_left
    intro p _
    exact oneHot_score p.2 (argmax1 p.1)
  have hex1 : rowScores [[9/10, 1/10], [2/10, 8/10]] [[(1:ℚ), 0], [0, 1]] = [1, 1] := by
    rw [key]
    simp only [List.zip_cons_cons, List.zip_nil_right, List.map_cons, List.map_nil]
    rw [argmax_example1, argmax_example2]
    rfl
  have hex2 : rowScores [[9/10, 1/10], [2/10, 8/10]] [[(0:ℚ), 1], [0, 1]] = [0, 1] := by
    rw [key]
    simp only [List.zip_cons_cons, List.zip_nil_right, List.map_cons, List.map_nil]
    rw [argmax_example1, argmax_example2]
    rfl
  refine ⟨key, ?_, hex1, by rw [hex1]; norm_num, hex2, by rw [hex2]; norm_num⟩
  intro logits labels hbin
  rw [key]
  apply List.map_congr_left
  intro p hp
  have hrow : p.2 ∈ labels := (List.of_mem_zip hp).2
  rcases binary_getD p.2 (hbin p.2 hrow) (argmax1 p.1) with h0 | h1
  · rw [h0, if_pos rfl]
  · rw [h1, if_neg (by norm_num)]

/-- Witness for C3: the binary-labels indicator form applied at a concrete
input. -/
theorem C3_score_semantics_witness :
    (∀ row ∈ [[(1:ℚ), 0]], ∀ x ∈ row, x = 0 ∨ x = 1) ∧
    rowScores [[(9:ℚ)/10, 1/10]] [[1, 0]] =
      ([[(9:ℚ)/10, 1/10]].zip [[(1:ℚ), 0]]).map
        (fun p => if p.2.getD (argmax1 p.1) 0 = 0 then 0 else 1) :=
  ⟨by decide, C3_score_semantics.2.1 [[(9:ℚ)/10, 1/10]] [[1, 0]] (by decide)⟩

/-- C3 counterexample: for soft labels the per-example score is the label
weight at the argmax index, not a 0-or-1 indicator: with logits `[[1, 0]]` and
labels `[[0.5, 0]]` the argmax class has nonzero ground-truth weight, so the
claimed indicator is 1, yet the computed score is 0.5 (neither 1 nor 0). -/
theorem C3_counterexample :
    rowScores [[1, 0]] [[1/2, 0]] = [1/2] ∧ ((1:ℚ)/2 ≠ 1) ∧ ((1:ℚ)/2 ≠ 0) := by
  refine ⟨?_, by norm_num, by norm_num⟩
  unfold rowScores compute_score_with_logits
  simp [List.zip, List.zipWith, argmax_example3, oneHotRow]

/-- C4: the final micro-batch of an epoch does not always commit.  With
`N = 4`, `batch_size = 2` the loader yields 2 micro-batches, but
`num_batches = int(4/2 + 1) = 3`, so with `update_freq = 3` both micro-batches
— including the final one, at index 1 — are buffered with
`update_params=False`, and the epoch ends without any commit. -/
theorem C4_last_batch_no_commit :
    loader_batches 4 2 = 2 ∧
    num_batches 4 2 = 3 ∧
    update_params_flag 4 2 3 0 = false ∧
    update_params_flag 4 2 3 1 = false := by
  decide

/-- C9: when `update_freq > print_interval` the progress-log divisor
`int(print_interval / update_freq)` is 0 and the first commit's
`num_updates % divisor` raises `ZeroDivisionError`; when
`print_interval >= update_freq` (and `update_freq > 0`) the divisor is
positive and the modulo is defined. -/
theorem C9_print_interval_precondition :
    ∀ (printInterval updateFreq : ℕ),
      (printInterval < updateFreq →
        print_divisor printInterval updateFreq = 0 ∧
        pymod 1 (print_divisor printInterval updateFreq) = none) ∧
      (0 < updateFreq → updateFreq ≤ printInterval →
        0 < print_divisor printInterval updateFreq ∧
        pymod 1 (print_divisor printInterval updateFreq) =
          some (1 % print_divisor printInterval updateFreq)) := by
  intro pInt uFreq
  constructor
  · intro h
    have hz : pInt / uFreq = 0 := Nat.div_eq_of_lt h
    exact ⟨hz, by simp [pymod, print_divisor, hz]⟩
  · intro h0 hle
    have hpos : 0 < pInt / uFreq := (Nat.one_le_div_iff h0).mpr hle
    exact ⟨hpos, by simp [pymod, print_divisor, Nat.pos_iff_ne_zero.mp hpos]⟩

/-- Witness for C9: both branches at concrete configurations. -/
theorem C9_print_interval_precondition_witness :
    ((10:ℕ) < 20 ∧ print_divisor 10 20 = 0 ∧ pymod 1 (print_divisor 10 20) = none) ∧
    ((0:ℕ) < 4 ∧ (4:ℕ) ≤ 100 ∧ 0 < print_divisor 100 4 ∧
      pymod 1 (print_divisor 100 4) = some (1 % print_divisor 100 4)) :=
  ⟨⟨by decide, (C9_print_interval_precondition 10 20).1 (by decide)⟩,
   ⟨by decide, by decide, (C9_print_interval_precondition 100 4).2 (by decide) (by decide)⟩⟩

/-- C6: scattering a flat buffer into the per-parameter gradients and
re-flattening reproduces the buffer, whenever the buffer's element count
equals the total element count of the gradients. -/
theorem C6_flatten_roundtrip :
    ∀ (grads : List (List ℚ)) (flat : List ℚ),
      flat.length = (grads.map List.length).sum →
      get_flat_grads (set_flat_grads grads flat) = flat := by
  intro grads
  induction grads with
  | nil =>
    intro flat h
    simp at h
    simp [set_flat_grads, get_flat_grads, h]
  | cons g gs ih =>
    intro flat h
    have hdrop : (flat.drop g.length).length = (gs.map List.length).sum := by
      rw [List.length_drop]
      simp only [List.map_cons, List.sum_cons] at h
      omega
    calc get_flat_grads (set_flat_grads (g :: gs) flat)
        = flat.take g.length ++ get_flat_grads (set_flat_grads gs (flat.drop g.length)) := by
          simp [set_flat_grads, get_flat_grads]
      _ = flat.take g.length ++ flat.drop g.length := by rw [ih _ hdrop]
      _ = flat := List.take_append_drop _ _

/-- Witness for C6: round trip on a concrete two-parameter shape. -/
theorem C6_flatten_roundtrip_witness :
    ([4, 5, 6] : List ℚ).length = (([[1, 2], [3]] : List (List ℚ)).map List.length).sum ∧
    get_flat_grads (set_flat_grads [[(1:ℚ), 2], [3]] [4, 5, 6]) = [4, 5, 6] :=
  ⟨by decide, C6_flatten_roundtrip [[(1:ℚ), 2], [3]] [4, 5, 6] (by decide)⟩

/-- C5: on a commit the aggregator divides every buffer element by the
denominator (the number of buffered micro-batches: each buffering step appends
sample size 1, so `grad_denom` is the count), returns the pre-clip global
norm, rescales so the post-clip norm equals `clip_norm` whenever the pre-clip
norm exceeds it, and leaves the buffer unchanged otherwise. -/
theorem C5_rescale_and_clip :
    ∀ (flatGrads : List ℝ) (gradDenom : ℕ) (clipNorm : ℝ), 0 < clipNorm →
      (all_reduce_and_rescale flatGrads gradDenom clipNorm).2 =
        l2norm (flatGrads.map (fun x => x / (gradDenom : ℝ))) ∧
      (clipNorm < l2norm (flatGrads.map (fun x => x / (gradDenom : ℝ))) →
        l2norm (all_reduce_and_rescale flatGrads gradDenom clipNorm).1 = clipNorm) ∧
      (l2norm (flatGrads.map (fun x => x / (gradDenom : ℝ))) ≤ clipNorm →
        (all_reduce_and_rescale flatGrads gradDenom clipNorm).1 =
          flatGrads.map (fun x => x / (gradDenom : ℝ))) ∧
      (∀ sizes : List ℕ, (∀ s ∈ sizes, s = 1) → grad_denom sizes = sizes.length) ∧
      (∀ (st : TrainerState) (f b : ℕ),
        (bufferStats st f b).sampleSizes = st.sampleSizes ++ [1]) := by
  intro v d cn hcn
  set w : List ℝ := v.map (fun x => x / (d : ℝ)) with hw
  refine ⟨?_, ?_, ?_, fun sizes hs => sum_ones sizes hs, fun st f b => rfl⟩
  · simp [all_reduce_and_rescale, clip_grad_norm]
  · intro hlt
    have hn : 0 < l2norm w := lt_trans hcn hlt
    have hres : (all_reduce_and_rescale v d cn).1 = w.map (fun x => x * (cn / l2norm w)) := by
      simp only [all_reduce_and_rescale, clip_grad_norm, ← hw]
      rw [if_pos hlt]
    rw [hres, l2norm_scale w _ (le_of_lt (div_pos hcn hn)), mul_comm,
      div_mul_cancel₀ cn (ne_of_gt hn)]
  · intro hle
    simp only [all_reduce_and_rescale, clip_grad_norm, ← hw]
    rw [if_neg (not_lt.mpr hle)]

/-- Witness for C5: the returned norm at a concrete buffer and clip threshold. -/
theorem C5_rescale_and_clip_witness :
    (0:ℝ) < 1 ∧
    (all_reduce_and_rescale [6, 8] 2 1).2 =
      l2norm (([6, 8] : List ℝ).map (fun x => x / ((2:ℕ) : ℝ))) :=
  ⟨by norm_num, (C5_rescale_and_clip [6, 8] 2 1 (by norm_num)).1⟩

/-- C2 (amended): when the forward pass raises an out-of-memory error it is
caught (nothing propagates), a warning is emitted, the loss becomes `None` so
backward is skipped and the micro-batch contributes no gradient; but
`zero_grad` is NOT called on this path, and only on a buffering step
(`update_params=False`) are the gradients, optimizer state and step count left
untouched — on a commit step the optimizer step still runs on whatever
gradients are already accumulated. -/
theorem C2_forward_oom :
    ∀ (st : TrainerState) (env : StepEnv),
      env.fwdRaise = some (PyErr.runtimeError true) →
      (train_step "MILQT" env false st =
        .ok { st with sampleSizes := st.sampleSizes ++ [1],
                      oomsFwd := st.oomsFwd ++ [1],
                      oomsBwd := st.oomsBwd ++ [0],
                      warnings := st.warnings + 1 }) ∧
      (∀ gs : List (List ℚ), env.overflowInCommit = false →
        getGrads st.params = .ok gs →
        (okState (train_step "MILQT" env true st)).map TrainerState.stepCount =
          some (st.stepCount + 1)) := by
  intro st env h
  constructor
  · simp [train_step, forwardTrain, h, backwardStep, bufferStats]
  · intro gs hov hg
    simp [train_step, forwardTrain, h, backwardStep, bufferStats, commitStep,
      allReduceAndRescaleQ, hg, hov, okState, clearBufferedStats, optStep, zeroGrad]

/-- Witness for C2: the amended behaviour at a concrete state in which one
trainable parameter already holds an accumulated gradient. -/
theorem C2_forward_oom_witness :
    envOOM.fwdRaise = some (PyErr.runtimeError true) ∧
    train_step "MILQT" envOOM false stOne = .ok stAfterOOMBuffer ∧
    (envOOM.overflowInCommit = false ∧ getGrads stOne.params = .ok [[1]] ∧
      (okState (train_step "MILQT" envOOM true stOne)).map TrainerState.stepCount =
        some (stOne.stepCount + 1)) :=
  ⟨rfl, ((C2_forward_oom stOne envOOM rfl).1).trans (congrArg Except.ok (by decide)),
   rfl, rfl, (C2_forward_oom stOne envOOM rfl).2 [[1]] rfl rfl⟩

/-- C2 counterexample: the claim requires `zero_grad` to be called on every
forward-OOM step and the gradients discarded; on this concrete buffering step
the OOM is caught and a warning printed, but `zero_grad` is never invoked and
the previously accumulated gradient `[1]` survives untouched. -/
theorem C2_counterexample :
    okState (train_step "MILQT" envOOM false stOne) = some stAfterOOMBuffer ∧
    stAfterOOMBuffer.zeroGradCount = stOne.zeroGradCount ∧
    stAfterOOMBuffer.params = stOne.params ∧
    stAfterOOMBuffer.params = [{ requiresGrad := true, grad := some [1] }] := by
  refine ⟨?_, by decide, by decide, by decide⟩
  decide

/-- C7: an `OverflowError` during gradient aggregation/rescaling at commit time
is caught: all gradients are zeroed, a warning is emitted, the optimizer step
is skipped, nothing propagates; and the buffered stats are cleared both on
this failure path and on a successful commit. -/
theorem C7_overflow_commit :
    ∀ (st : TrainerState) (env : StepEnv) (gs : List (List ℚ)),
      env.fwdRaise = none → env.bwdRaise = none →
      getGrads (accumGrads st.params env.contrib) = .ok gs →
      (env.overflowInCommit = true →
        train_step "MILQT" env true st = .ok
          { params := zeroGradParams (accumGrads st.params env.contrib),
            stepCount := st.stepCount,
            zeroGradCount := st.zeroGradCount + 1,
            numUpdates := st.numUpdates,
            sampleSizes := [], oomsFwd := [], oomsBwd := [],
            warnings := st.warnings + 1 }) ∧
      (env.overflowInCommit = false →
        (okState (train_step "MILQT" env true st)).map TrainerState.sampleSizes = some [] ∧
        (okState (train_step "MILQT" env true st)).map TrainerState.oomsFwd = some [] ∧
        (okState (train_step "MILQT" env true st)).map TrainerState.oomsBwd = some [] ∧
        (okState (train_step "MILQT" env true st)).map TrainerState.stepCount =
          some (st.stepCount + 1)) := by
  intro st env gs hf hb hg
  constructor
  · intro hov
    simp [train_step, forwardTrain, hf, backwardStep, hb, bufferStats, commitStep,
      allReduceAndRescaleQ, hg, hov, clearBufferedStats, zeroGrad]
  · intro hov
    simp [train_step, forwardTrain, hf, backwardStep, hb, bufferStats, commitStep,
      allReduceAndRescaleQ, hg, hov, okState, clearBufferedStats, optStep, zeroGrad]

/-- Witness for C7: the caught-overflow commit at a concrete state. -/
theorem C7_overflow_commit_witness :
    envOverflow.fwdRaise = none ∧ envOverflow.bwdRaise = none ∧
    getGrads (accumGrads stNoGrad.params envOverflow.contrib) = .ok [[1]] ∧
    envOverflow.overflowInCommit = true ∧
    train_step "MILQT" envOverflow true stNoGrad = .ok
      { params := zeroGradParams (accumGrads stNoGrad.params envOverflow.contrib),
        stepCount := stNoGrad.stepCount,
        zeroGradCount := stNoGrad.zeroGradCount + 1,
        numUpdates := stNoGrad.numUpdates,
        sampleSizes := [], oomsFwd := [], oomsBwd := [],
        warnings := stNoGrad.warnings + 1 } :=
  ⟨rfl, rfl, rfl, rfl,
   (C7_overflow_commit stNoGrad envOverflow [[1]] rfl rfl rfl).1 rfl⟩

/-- C8: if at commit time some `requires_grad` parameter has no gradient,
gradient collection raises the missing-gradient `RuntimeError`, which is not
an `OverflowError` and not an out-of-memory `RuntimeError`, so it propagates
out of `train_step` uncaught (and the buffered stats are not even cleared). -/
theorem C8_missing_gradient :
    (∀ ps : List Param, (∃ p ∈ ps, p.requiresGrad = true ∧ p.grad = none) →
      getGrads ps = .error (PyErr.runtimeError false)) ∧
    (∀ (st : TrainerState) (env : StepEnv),
      env.fwdRaise = none → env.bwdRaise = none →
      getGrads (accumGrads st.params env.contrib) = .error (PyErr.runtimeError false) →
      train_step "MILQT" env true st =
        .error (PyErr.runtimeError false,
          bufferStats { st with params := accumGrads st.params env.contrib } 0 0)) := by
  constructor
  · intro ps h
    induction ps with
    | nil =>
      rcases h with ⟨p, hp, _⟩
      simp at hp
    | cons p ps ih =>
      rcases h with ⟨q, hq, hrq, hgq⟩
      rcases List.mem_cons.mp hq with rfl | hmem
      · simp [getGrads, hrq, hgq]
      · have herr := ih ⟨q, hmem, hrq, hgq⟩
        by_cases hrp : p.requiresGrad
        · cases hgp : p.grad with
          | none => simp [getGrads, hrp, hgp]
          | some g => simp [getGrads, hrp, hgp, herr]
        · simp [getGrads, hrp, herr]
  · intro st env hf hb hg
    simp [train_step, forwardTrain, hf, backwardStep, hb, bufferStats, commitStep,
      allReduceAndRescaleQ, hg]

/-- Witness for C8: the missing-gradient error propagating at a concrete state
whose single trainable parameter receives no gradient from backward. -/
theorem C8_missing_gradient_witness :
    ((∃ p ∈ stNoGrad.params, p.requiresGrad = true ∧ p.grad = none) ∧
      getGrads stNoGrad.params = .error (PyErr.runtimeError false)) ∧
    (envNoTouch.fwdRaise = none ∧ envNoTouch.bwdRaise = none ∧
      getGrads (accumGrads stNoGrad.params envNoTouch.contrib) =
        .error (PyErr.runtimeError false) ∧
      train_step "MILQT" envNoTouch true stNoGrad =
        .error (PyErr.runtimeError false,
          bufferStats { stNoGrad with
            params := accumGrads stNoGrad.params envNoTouch.contrib } 0 0)) :=
  ⟨⟨⟨{ requiresGrad := true, grad := none }, by decide, rfl, rfl⟩,
    C8_missing_gradient.1 stNoGrad.params
      ⟨{ requiresGrad := true, grad := none }, by decide, rfl, rfl⟩⟩,
   rfl, rfl, rfl,
   C8_missing_gradient.2 stNoGrad envNoTouch rfl rfl rfl⟩

/-- C10: with any model name other than `MILQT`, `train_step` dereferences the
never-assigned `final_preds` and raises a `NameError` that propagates, and the
evaluator's score computation receives `final_preds = None` and raises a
`TypeError`; both entry points therefore require `args.model == "MILQT"`. -/
theorem C10_model_name_precondition :
    ∀ m : String, m ≠ "MILQT" →
      (∀ (env : StepEnv) (up : Bool) (st : TrainerState),
        train_step m env up st = .error (PyErr.nameError, st)) ∧
      (∀ preds labels : List (List ℚ),
        evalBatchScore m preds labels = .error PyErr.typeError) := by
  intro m hm
  constructor
  · intro env up st
    simp [train_step, forwardTrain, hm]
  · intro preds labels
    simp [evalBatchScore, hm]

/-- Witness for C10: both failures at the model name `BAN`. -/
theorem C10_model_name_precondition_witness :
    ("BAN" : String) ≠ "MILQT" ∧
    train_step "BAN" envOk true stOne = .error (PyErr.nameError, stOne) ∧
    evalBatchScore "BAN" [[1]] [[1]] = .error PyErr.typeError :=
  ⟨by decide, (C10_model_name_precondition "BAN" (by decide)).1 envOk true stOne,
   (C10_model_name_precondition "BAN" (by decide)).2 [[1]] [[1]]⟩

end MILQT
